import Mathlib

/-!
Shallow embedding of the KivyMD elevation behavior
(`kivymd/uix/behaviors/elevation.py`) and of the chip widget
(`kivymd/uix/chip/chip.py`).

Modelling conventions:

* Python floats become rationals (`ℚ`); Python lists of floats become
  `List ℚ`.
* The two attributes created in `CommonElevationBehavior.__init__` — the
  `context` render context and the `rect` shadow quad — may be missing when
  a handler runs (properties assigned during `super().__init__` fire their
  handlers first).  They are `Option` fields; `none` models
  `hasattr(self, ...)` being false.
* Handlers whose body is wrapped in `Clock.schedule_once` are modelled by
  the deferred body itself: the toolkit is single threaded and runs the
  body before the next frame.
* A handler that would raise a Python exception (an `AttributeError` on a
  missing attribute) returns `Except.error`.
* The Kivy property system stores an assigned value into the property
  before dispatching the `on_<name>` handler, and dispatches only when the
  value changed; the `set_disabled` / `Chip.set_active` wrappers model the
  assignment, the `on_<name>` functions model the handler body run on a
  state whose property field already holds the new value.
-/

namespace Elevation

/-- A four-component float list (corner radii and similar uniforms). -/
structure Vec4 where
  r0 : ℚ
  r1 : ℚ
  r2 : ℚ
  r3 : ℚ
  deriving Repr, DecidableEq

/-- RGBA colors are Python float lists. -/
abbrev Color := List ℚ

/-- The widget's `RenderContext`: the `use_parent_modelview` flag consulted
by the correction protocol, plus the named shader uniforms written by the
handlers (`shadow_radius`, `shadow_softness`, `shadow_color`, `pos`,
`size`, `mouse`, `resolution`). -/
structure RenderCtx where
  use_parent_modelview : Bool
  shadow_radius : Vec4
  shadow_softness : ℚ
  shadow_color : Color
  u_pos : ℚ × ℚ
  u_size : ℚ × ℚ
  mouse : List ℚ
  resolution : List ℚ
  deriving Repr, DecidableEq

/-- The `RoundedRectangle` shadow quad (`self.rect`). -/
structure Quad where
  pos : ℚ × ℚ
  size : ℚ × ℚ
  deriving Repr, DecidableEq

/-- The observable state of a `CommonElevationBehavior` widget.  Fields
named `*_internal` model the Python attributes `_elevation` and
`_shadow_color`; `has_relative_position` models `_has_relative_position`;
`transition_ref` models `_transition_ref`, identified by the string
representation of its `transition` attribute (the only thing
`apply_correction` reads from it); `window_pos` models the `window_pos`
alias property `self.to_window(*self.pos)`. -/
structure CommonElevationBehavior where
  elevation : ℚ
  shadow_radius : Vec4
  shadow_softness : ℚ
  shadow_offset : ℚ × ℚ
  shadow_color : Color
  opacity : ℚ
  disabled : Bool
  pos : ℚ × ℚ
  size : ℚ × ℚ
  window_pos : ℚ × ℚ
  has_relative_position : Bool
  transition_ref : Option String
  elevation_internal : ℚ
  shadow_color_internal : Color
  context : Option RenderCtx
  rect : Option Quad
  deriving Repr, DecidableEq

/-- `update_resolution`:
`self.context["resolution"] = (*self.rect.size, *self.rect.pos)`. -/
def update_resolution (s : CommonElevationBehavior) :
    Except String CommonElevationBehavior :=
  match s.context, s.rect with
  | some c, some r =>
      let c1 := { c with resolution := [r.size.1, r.size.2, r.pos.1, r.pos.2] }
      .ok { s with context := some c1 }
  | _, _ => .error "AttributeError"

/-- `on_pos`: early-returns when `rect` is missing; otherwise chooses the
window-absolute or the local position, repositions the quad by
`pos - (rect.size - size) / 2 - shadow_offset`, and pushes the `mouse`,
`pos` and `resolution` uniforms. -/
def on_pos (s : CommonElevationBehavior) : Except String CommonElevationBehavior :=
  match s.rect with
  | none => .ok s
  | some r =>
    match s.context with
    | none => .error "AttributeError"
    | some c =>
      let p : ℚ × ℚ :=
        if s.has_relative_position && !c.use_parent_modelview then s.window_pos
        else s.pos
      let newPos : ℚ × ℚ :=
        (p.1 - (r.size.1 - s.size.1) / 2 - s.shadow_offset.1,
         p.2 - (r.size.2 - s.size.2) / 2 - s.shadow_offset.2)
      let r1 := { r with pos := newPos }
      let c1 := { c with mouse := [newPos.1, 0, 0, 0], u_pos := newPos }
      update_resolution { s with rect := some r1, context := some c1 }

/-- `on_size`: early-returns when `rect` is missing; otherwise resizes the
quad to `size + _elevation * shadow_softness / 2` in both axes and pushes
the `mouse`, `size` and `resolution` uniforms (`mouse` reads the quad's
current, unchanged position). -/
def on_size (s : CommonElevationBehavior) : Except String CommonElevationBehavior :=
  match s.rect with
  | none => .ok s
  | some r =>
    match s.context with
    | none => .error "AttributeError"
    | some c =>
      let newSize : ℚ × ℚ :=
        (s.size.1 + s.elevation_internal * s.shadow_softness / 2,
         s.size.2 + s.elevation_internal * s.shadow_softness / 2)
      let r1 := { r with size := newSize }
      let c1 := { c with mouse := [r.pos.1, 0, 0, 0], u_size := newSize }
      update_resolution { s with rect := some r1, context := some c1 }

/-- `on_shadow_color` (deferred body).  Note: unlike the radius, softness
and elevation handlers this body has no `hasattr(self, "context")` guard —
it first stores `_shadow_color` and then writes the uniform, raising an
`AttributeError` when `context` does not exist yet. -/
def on_shadow_color (s : CommonElevationBehavior) (value : Color) :
    Except String CommonElevationBehavior :=
  let sc : Color := value.dropLast ++ [if !s.disabled then s.opacity else 0]
  let s1 := { s with shadow_color_internal := sc }
  match s1.context with
  | none => .error "AttributeError"
  | some c => .ok { s1 with context := some { c with shadow_color := sc } }

/-- `on_shadow_radius` (deferred body): guarded by
`hasattr(self, "context")`. -/
def on_shadow_radius (s : CommonElevationBehavior) (value : Vec4) :
    CommonElevationBehavior :=
  match s.context with
  | none => s
  | some c => { s with context := some { c with shadow_radius := value } }

/-- `on_shadow_softness` (deferred body): guarded by
`hasattr(self, "context")`. -/
def on_shadow_softness (s : CommonElevationBehavior) (value : ℚ) :
    CommonElevationBehavior :=
  match s.context with
  | none => s
  | some c => { s with context := some { c with shadow_softness := value } }

/-- `hide_elevation`: suppresses (`_elevation = -elevation`, transparent
`_shadow_color`) or restores (`_elevation = elevation`, `_shadow_color`
from the property and the opacity), then re-runs `on_shadow_color`,
`on_size` and `on_pos` in that order. -/
def hide_elevation (s : CommonElevationBehavior) (hide : Bool) :
    Except String CommonElevationBehavior :=
  let s1 :=
    if hide then
      { s with elevation_internal := -s.elevation,
               shadow_color_internal := [0, 0, 0, 0] }
    else
      { s with elevation_internal := s.elevation,
               shadow_color_internal := s.shadow_color.dropLast ++ [s.opacity] }
  match on_shadow_color s1 s1.shadow_color_internal with
  | .error e => .error e
  | .ok s2 =>
    match on_size s2 with
    | .error e => .error e
    | .ok s3 => on_pos s3

/-- `on_elevation` (deferred body): guarded by `hasattr(self, "context")`;
stores `_elevation = value` and hides exactly when `value <= 0 or
self.disabled`.  The property already holds `value` when the handler runs,
so callers pass a state whose `elevation` field equals `value`. -/
def on_elevation (s : CommonElevationBehavior) (value : ℚ) :
    Except String CommonElevationBehavior :=
  match s.context with
  | none => .ok s
  | some _ =>
      hide_elevation { s with elevation_internal := value }
        (decide (value ≤ 0) || s.disabled)

/-- `on_disabled`: zeroes `_elevation` and hides on disable, restores on
enable.  The `disabled` property already holds `value` when the handler
runs. -/
def on_disabled (s : CommonElevationBehavior) (value : Bool) :
    Except String CommonElevationBehavior :=
  if value then
    hide_elevation { s with elevation_internal := 0 } true
  else
    hide_elevation s false

/-- The assignment `self.disabled = value`: the property stores the value
and dispatches `on_disabled` only when the value changed. -/
def set_disabled (s : CommonElevationBehavior) (value : Bool) :
    Except String CommonElevationBehavior :=
  if s.disabled = value then .ok s
  else on_disabled { s with disabled := value } value

/-- `on_radius`:
`self.shadow_radius = [value[1], value[2], value[0], value[3]]`, an
assignment that in turn dispatches `on_shadow_radius`. -/
def on_radius (s : CommonElevationBehavior) (value : Vec4) :
    CommonElevationBehavior :=
  on_shadow_radius
    { s with shadow_radius := ⟨value.r1, value.r2, value.r0, value.r3⟩ }
    ⟨value.r1, value.r2, value.r0, value.r3⟩

/-- Python `needle in hay` on strings. -/
def strContains (hay needle : String) : Bool :=
  (hay.splitOn needle).length != 1

/-- `apply_correction` (bound to `on_pre_enter` and `on_pre_leave`): a
falsy `_transition_ref` is a no-op; otherwise `use_parent_modelview` is
cleared for slide/card transitions and set for every other kind. -/
def apply_correction (s : CommonElevationBehavior) :
    Except String CommonElevationBehavior :=
  match s.transition_ref with
  | none => .ok s
  | some tr =>
    match s.context with
    | none => .error "AttributeError"
    | some c =>
      if strContains tr "SlideTransition" || strContains tr "CardTransition" then
        .ok { s with context := some { c with use_parent_modelview := false } }
      else
        .ok { s with context := some { c with use_parent_modelview := true } }

/-- `reset_correction` (bound to `on_enter` and `on_leave`): clears
`use_parent_modelview` and re-runs `on_pos` (via
`update_window_position`). -/
def reset_correction (s : CommonElevationBehavior) :
    Except String CommonElevationBehavior :=
  match s.context with
  | none => .error "AttributeError"
  | some c => on_pos { s with context := some { c with use_parent_modelview := false } }

/-- One widget visited by the ancestor walk of
`check_for_relative_behavior`: whether it exposes `on_pre_enter`, whether
it has a `header` (bottom navigation) whose `header.panel` is recorded,
and whether it has a `manager` attribute (screens), recorded when truthy.
Referenced transition objects are identified by the string representation
of their `transition` attribute. -/
structure Ancestor where
  has_pre_enter : Bool
  has_header : Bool
  header_panel : String
  has_manager : Bool
  manager : Option String
  deriving Repr, DecidableEq

/-- The `while True` walk: the first visited widget exposing
`on_pre_enter`, walking from the widget itself up the parent chain. -/
def find_screen_widget : List Ancestor → Option Ancestor
  | [] => none
  | w :: ws => if w.has_pre_enter then some w else find_screen_widget ws

/-- Which transition reference the walk records for a found widget. -/
def transition_ref_of (w : Ancestor) (old : Option String) : Option String :=
  if w.has_header then some w.header_panel
  else if w.has_manager then
    match w.manager with
    | some m => some m
    | none => old
  else old

/-- `check_for_relative_behavior` (deferred, run once after attach): sets
`_has_relative_position` when the widget's position differs from its
window position, then walks the chain (the widget followed by its
ancestors); a widget exposing screen events sets the flag and records a
transition reference.  (The event binding and the `Window.on_draw` binding
carry no further state.) -/
def check_for_relative_behavior (s : CommonElevationBehavior)
    (chain : List Ancestor) : CommonElevationBehavior :=
  let s1 := if s.pos ≠ s.window_pos then { s with has_relative_position := true } else s
  match find_screen_widget chain with
  | none => s1
  | some w =>
      { s1 with has_relative_position := true,
                transition_ref := transition_ref_of w s1.transition_ref }

/-- The two coordinate frames of the shadow. -/
inductive CoordFrame
  | LOCAL
  | ABSOLUTE
  deriving Repr, DecidableEq

/-- The coordinate frame `on_pos` uses: ABSOLUTE (the window-absolute
`window_pos`) exactly when `_has_relative_position` is set and
`use_parent_modelview` is cleared, LOCAL (the parent-local `pos`)
otherwise — the branch condition of `on_pos`. -/
def coord_frame (s : CommonElevationBehavior) : CoordFrame :=
  match s.context with
  | none => .LOCAL
  | some c =>
      if s.has_relative_position && !c.use_parent_modelview then .ABSOLUTE
      else .LOCAL

/-- Kivy `BoundedNumericProperty` assignment semantics (dependency
behavior, `kivy/properties.pyx`): a value below the minimum is replaced by
the declared `errorvalue` when one was given, otherwise raises a
`ValueError`. -/
def bounded_numeric_set (minValue : ℚ) (errorvalue : Option ℚ) (value : ℚ) :
    Except String ℚ :=
  if value < minValue then
    match errorvalue with
    | some e => .ok e
    | none => .error "ValueError"
  else .ok value

/-- The declaration
`elevation = BoundedNumericProperty(0, min=0, errorvalue=0)`. -/
def elevation_set (value : ℚ) : Except String ℚ :=
  bounded_numeric_set 0 (some 0) value

end Elevation

namespace Chip

/-- One `Animation(...)` started by `do_animation_check`: its target
widget (by id), the animated properties it sets, its transition curve `t`
and duration `d`. -/
structure Anim where
  target : String
  md_bg_color : Option (List ℚ)
  scale_value_x : Option ℚ
  scale_value_y : Option ℚ
  scale_value_z : Option ℚ
  t : String
  d : ℚ
  deriving Repr, DecidableEq

/-- `do_animation_check`: starts one color animation on
`self.ids.icon_left_box` and one scale animation on
`self.ids.check_icon`, both with `t="out_sine"`, `d=0.1`. -/
def do_animation_check (md_bg_color : List ℚ) (scale_value : ℚ) : List Anim :=
  [{ target := "icon_left_box", md_bg_color := some md_bg_color,
     scale_value_x := none, scale_value_y := none, scale_value_z := none,
     t := "out_sine", d := 1/10 },
   { target := "check_icon", md_bg_color := none,
     scale_value_x := some scale_value, scale_value_y := some scale_value,
     scale_value_z := some scale_value,
     t := "out_sine", d := 1/10 }]

/-- `on_active`: the animations dispatched when `active` changes. -/
def on_active (active_value : Bool) : List Anim :=
  if active_value then do_animation_check [0, 0, 0, 4/10] 1
  else do_animation_check [0, 0, 0, 0] 0

/-- The `MDChip` state the touch and long-touch handlers read. -/
structure MDChip where
  pos : ℚ × ℚ
  size : ℚ × ℚ
  icon_left : String
  active : Bool
  deriving Repr, DecidableEq

/-- The assignment `self.active = value`: the `BooleanProperty` stores the
value and dispatches `on_active` only when the value changed.  Returns the
updated chip and the animations started. -/
def set_active (chip : MDChip) (value : Bool) : MDChip × List Anim :=
  if chip.active = value then (chip, [])
  else ({ chip with active := value }, on_active value)

/-- `on_long_touch`: returns early when `icon_left` is empty (falsy) or
the chip is already active; otherwise
`self.active = True if not self.active else False`. -/
def on_long_touch (chip : MDChip) : MDChip × List Anim :=
  if chip.icon_left = "" then (chip, [])
  else if chip.active then (chip, [])
  else set_active chip (if !chip.active then true else false)

/-- Kivy `Widget.collide_point` (dependency behavior): the touch lies in
the chip's axis-aligned bounding box. -/
def collide_point (chip : MDChip) (touch : ℚ × ℚ) : Bool :=
  decide (chip.pos.1 ≤ touch.1) && decide (touch.1 ≤ chip.pos.1 + chip.size.1) &&
    decide (chip.pos.2 ≤ touch.2) && decide (touch.2 ≤ chip.pos.2 + chip.size.2)

/-- The externally visible steps `MDChip.on_touch_down` performs, in
order: `deactivate` is the assignment `self.active = False` (which
dispatches `on_active` and its animations), `super_touch` is the
delegation `super().on_touch_down(touch)` to button handling. -/
inductive ChipEvent
  | deactivate
  | super_touch
  deriving Repr, DecidableEq

/-- `MDChip.on_touch_down`.  `superResult` abstracts the value
`super().on_touch_down(touch)` would return; the `Option Bool` component
is the handler's own return value (`none` is Python's implicit `None`),
and the event list records what happened, in order. -/
def on_touch_down (chip : MDChip) (touch : ℚ × ℚ) (superResult : Bool) :
    MDChip × List ChipEvent × Option Bool :=
  if collide_point chip touch then
    if chip.active then
      ({ chip with active := false },
        [ChipEvent.deactivate, ChipEvent.super_touch], some superResult)
    else
      (chip, [ChipEvent.super_touch], some superResult)
  else
    (chip, [], none)

end Chip

namespace Elevation

/-- A render context as created in `__init__` (`use_parent_projection=True`
is passed; `use_parent_modelview` keeps its `False` default) after the
initial uniform pushes. -/
def baseCtx : RenderCtx :=
  { use_parent_modelview := false, shadow_radius := ⟨0, 0, 0, 0⟩,
    shadow_softness := 12, shadow_color := [0, 0, 0, 3/5],
    u_pos := (0, 0), u_size := (0, 0), mouse := [0, 0, 0, 0],
    resolution := [0, 0, 0, 0] }

/-- A concrete shadow quad. -/
def baseQuad : Quad := { pos := (10, 20), size := (100, 50) }

/-- A concrete initialized widget sitting inside a screen manager whose
current transition prints as a `SlideTransition`. -/
def base : CommonElevationBehavior :=
  { elevation := 4, shadow_radius := ⟨0, 0, 0, 0⟩, shadow_softness := 12,
    shadow_offset := (0, 2), shadow_color := [0, 0, 0, 3/5], opacity := 1,
    disabled := false, pos := (10, 20), size := (100, 50),
    window_pos := (110, 220), has_relative_position := true,
    transition_ref := some "<kivy.uix.screenmanager.SlideTransition object at 0x0>",
    elevation_internal := 4, shadow_color_internal := [0, 0, 0, 1],
    context := some baseCtx, rect := some baseQuad }

/-- A widget state before `__init__` has created `context` and `rect`:
this is what property handlers fired during `super().__init__` see. -/
def uninit : CommonElevationBehavior :=
  { base with context := none, rect := none }

end Elevation

namespace Chip

/-- A concrete chip with a left icon, not active. -/
def baseChip : MDChip :=
  { pos := (0, 0), size := (120, 40), icon_left := "account", active := false }

end Chip

namespace Elevation

/-- C4: the corner-radius remap applied when the host radius changes is
the fixed permutation taking host radii `[a, b, c, d]` (top-left,
top-right, bottom-right, bottom-left) to shadow radii `[b, c, a, d]`
(right-top, right-bottom, left-top, left-bottom). -/
theorem C4_radius_permutation (s : CommonElevationBehavior) (a b c d : ℚ) :
    (on_radius s ⟨a, b, c, d⟩).shadow_radius = ⟨b, c, a, d⟩ := by
  cases h : s.context <;> simp [on_radius, on_shadow_radius, h]

/-- C9: assigning a negative value to the `elevation` property raises no
error; the property's own validation (`min=0`, `errorvalue=0`) stores the
minimum bound `0` instead. -/
theorem C9_negative_elevation_clamped (value : ℚ) (h : value < 0) :
    elevation_set value = .ok 0 := by
  simp [elevation_set, bounded_numeric_set, h]

/-- C9 witness: the concrete assignment `elevation = -3`. -/
theorem C9_witness : (-3 : ℚ) < 0 ∧ elevation_set (-3) = .ok 0 :=
  ⟨by norm_num, C9_negative_elevation_clamped (-3) (by norm_num)⟩

end Elevation

namespace Chip

/-- C6: toggling `active` from false to true dispatches exactly one
animation pair — the left-icon background color to alpha `0.4` and the
check-icon scale to `1`; toggling true to false dispatches exactly the
reverse pair (alpha `0`, scale `0`); all four animations run over `0.1`
seconds with the ease-out curve `out_sine`; and a long-touch with no left
icon present leaves `active` unchanged and starts no animation. -/
theorem C6_active_animations (chip : MDChip) :
    (chip.active = false → set_active chip true =
      ({ chip with active := true },
        [{ target := "icon_left_box", md_bg_color := some [0, 0, 0, 4/10],
           scale_value_x := none, scale_value_y := none, scale_value_z := none,
           t := "out_sine", d := 1/10 },
         { target := "check_icon", md_bg_color := none,
           scale_value_x := some 1, scale_value_y := some 1,
           scale_value_z := some 1, t := "out_sine", d := 1/10 }]))
    ∧ (chip.active = true → set_active chip false =
      ({ chip with active := false },
        [{ target := "icon_left_box", md_bg_color := some [0, 0, 0, 0],
           scale_value_x := none, scale_value_y := none, scale_value_z := none,
           t := "out_sine", d := 1/10 },
         { target := "check_icon", md_bg_color := none,
           scale_value_x := some 0, scale_value_y := some 0,
           scale_value_z := some 0, t := "out_sine", d := 1/10 }]))
    ∧ (chip.icon_left = "" → on_long_touch chip = (chip, [])) := by
  refine ⟨fun h => ?_, fun h => ?_, fun h => ?_⟩ <;>
    simp [set_active, on_long_touch, on_active, do_animation_check, h]

/-- C6 witness: activating a concrete inactive chip, and a long-touch on a
concrete chip without a left icon. -/
theorem C6_witness :
    baseChip.active = false ∧
    set_active baseChip true =
      ({ baseChip with active := true },
        [{ target := "icon_left_box", md_bg_color := some [0, 0, 0, 4/10],
           scale_value_x := none, scale_value_y := none, scale_value_z := none,
           t := "out_sine", d := 1/10 },
         { target := "check_icon", md_bg_color := none,
           scale_value_x := some 1, scale_value_y := some 1,
           scale_value_z := some 1, t := "out_sine", d := 1/10 }]) ∧
    on_long_touch { baseChip with icon_left := "" } =
      ({ baseChip with icon_left := "" }, []) :=
  ⟨rfl, (C6_active_animations baseChip).1 rfl,
    (C6_active_animations { baseChip with icon_left := "" }).2.2 rfl⟩

/-- C7: a touch colliding with an active chip sets `active` to false
before the delegation to the superclass button handling: the handler's
trace is the deactivation followed by the delegation. -/
theorem C7_deactivate_before_delegation (chip : MDChip) (touch : ℚ × ℚ)
    (superResult : Bool) (hcol : collide_point chip touch = true)
    (hact : chip.active = true) :
    on_touch_down chip touch superResult =
      ({ chip with active := false },
        [ChipEvent.deactivate, ChipEvent.super_touch], some superResult) := by
  simp [on_touch_down, hcol, hact]

/-- C7 witness: a concrete colliding touch on an active chip. -/
theorem C7_witness :
    collide_point { baseChip with active := true } (5, 5) = true ∧
    on_touch_down { baseChip with active := true } (5, 5) false =
      ({ baseChip with active := false },
        [ChipEvent.deactivate, ChipEvent.super_touch], some false) :=
  ⟨by norm_num [collide_point, baseChip],
    C7_deactivate_before_delegation { baseChip with active := true } (5, 5) false
      (by norm_num [collide_point, baseChip]) rfl⟩

/-- C10: a touch that does not collide with the chip makes the handler
return `None` without delegating to the superclass and without touching
`active`. -/
theorem C10_outside_touch_ignored (chip : MDChip) (touch : ℚ × ℚ)
    (superResult : Bool) (hcol : collide_point chip touch = false) :
    on_touch_down chip touch superResult = (chip, [], none) := by
  simp [on_touch_down, hcol]

/-- C10 witness: a concrete touch outside the chip's bounding box. -/
theorem C10_witness :
    collide_point baseChip (500, 500) = false ∧
    on_touch_down baseChip (500, 500) true = (baseChip, [], none) :=
  ⟨by norm_num [collide_point, baseChip],
    C10_outside_touch_ignored baseChip (500, 500) true
      (by norm_num [collide_point, baseChip])⟩

end Chip

namespace Elevation

/-- C1 (amended): the coordinate-frame state machine has states
{LOCAL, ABSOLUTE}; the frame is ABSOLUTE exactly when
`_has_relative_position` is set and `use_parent_modelview` is cleared, so
a widget starts in LOCAL (`_has_relative_position` defaults to false)
unless the attach-time ancestor walk sets the flag.  A pre-enter or
pre-leave event moves the frame to ABSOLUTE when the recorded transition
reference is a sliding/card transition and to LOCAL when a reference of
any other kind is recorded, but is a no-op (frame unchanged) when no
reference was recorded; an enter or leave event moves the frame to
ABSOLUTE — not LOCAL as claimed — because `reset_correction` clears
`use_parent_modelview`, making `on_pos` read the window-absolute
position. -/
theorem C1_coord_frame_machine (s : CommonElevationBehavior) (c : RenderCtx)
    (r : Quad) (hc : s.context = some c) (hr : s.rect = some r) :
    (coord_frame s = CoordFrame.ABSOLUTE ↔
      s.has_relative_position = true ∧ c.use_parent_modelview = false)
    ∧ (s.has_relative_position = false → c.use_parent_modelview = false →
        ∀ chain : List Ancestor,
          coord_frame (check_for_relative_behavior s chain) =
            if s.pos ≠ s.window_pos ∨ (find_screen_widget chain).isSome = true
            then CoordFrame.ABSOLUTE else CoordFrame.LOCAL)
    ∧ (∀ tr, s.transition_ref = some tr → s.has_relative_position = true →
        (apply_correction s).toOption.map coord_frame =
          some (if strContains tr "SlideTransition" || strContains tr "CardTransition"
                then CoordFrame.ABSOLUTE else CoordFrame.LOCAL))
    ∧ (s.transition_ref = none → apply_correction s = .ok s)
    ∧ (s.has_relative_position = true →
        (reset_correction s).toOption.map coord_frame = some CoordFrame.ABSOLUTE) := by
  refine ⟨?_, ?_, ?_, ?_, ?_⟩
  · cases hrel : s.has_relative_position <;>
      cases hupm : c.use_parent_modelview <;>
        simp [coord_frame, hc, hrel, hupm]
  · intro hrel hupm chain
    by_cases hpw : s.pos = s.window_pos <;>
      cases hfind : find_screen_widget chain <;>
        simp [check_for_relative_behavior, coord_frame, hc, hrel, hupm, hpw, hfind]
  · intro tr htr hrel
    by_cases hkind :
        (strContains tr "SlideTransition" || strContains tr "CardTransition") = true <;>
      simp [apply_correction, coord_frame, Except.toOption, htr, hc, hrel, hkind]
  · intro htr
    simp [apply_correction, htr]
  · intro hrel
    simp [reset_correction, on_pos, update_resolution, coord_frame, Except.toOption,
      hc, hr, hrel]

/-- C1 counterexample: a widget with the relative-position flag set whose
`use_parent_modelview` was set during a non-sliding transition receives an
enter/leave event; `reset_correction` leaves it in the ABSOLUTE frame,
refuting the claim that enter/leave moves the machine to LOCAL. -/
theorem C1_counterexample :
    (reset_correction
        { base with context := some { baseCtx with use_parent_modelview := true } }
      ).toOption.map coord_frame = some CoordFrame.ABSOLUTE
    ∧ CoordFrame.ABSOLUTE ≠ CoordFrame.LOCAL := by
  constructor
  · simp [reset_correction, on_pos, update_resolution, coord_frame, Except.toOption,
      base, baseCtx, baseQuad]
  · simp

/-- C1 witness: the amended machine applied to a concrete widget whose
walk recorded no transition reference — a pre-enter event is a no-op. -/
theorem C1_witness :
    apply_correction { base with transition_ref := none } =
      .ok { base with transition_ref := none } :=
  (C1_coord_frame_machine { base with transition_ref := none } baseCtx baseQuad
    rfl rfl).2.2.2.1 rfl

end Elevation

namespace Elevation

/-- C2 (amended): on an initialized, enabled widget with a non-negative
stored elevation, setting `disabled = true` forces the effective rendered
elevation to the *negation* of the stored elevation (a non-positive value
that zeroes out the shader contribution — not to `0` as claimed), fully
suppresses the shadow (internal shadow color and the pushed uniform are
`[0, 0, 0, 0]`), leaves the user-facing `elevation` property unchanged,
and setting `disabled = false` afterwards restores the effective elevation
to the stored value. -/
theorem C2_disabled_suppresses_shadow (s : CommonElevationBehavior)
    (c : RenderCtx) (r : Quad) (hc : s.context = some c) (hr : s.rect = some r)
    (hd : s.disabled = false) (he : 0 ≤ s.elevation) :
    ((set_disabled s true).toOption.map fun t => t.elevation_internal)
        = some (-s.elevation)
    ∧ -s.elevation ≤ 0
    ∧ ((set_disabled s true).toOption.map fun t => t.elevation) = some s.elevation
    ∧ ((set_disabled s true).toOption.map fun t => t.shadow_color_internal)
        = some [0, 0, 0, 0]
    ∧ ((set_disabled s true).toOption.map fun t =>
          t.context.map fun c1 => c1.shadow_color) = some (some [0, 0, 0, 0])
    ∧ ((set_disabled s true).toOption.bind fun t =>
          (set_disabled t false).toOption.map fun u =>
            (u.elevation_internal, u.elevation))
        = some (s.elevation, s.elevation) := by
  refine ⟨?_, neg_nonpos.mpr he, ?_, ?_, ?_, ?_⟩ <;>
    simp [set_disabled, on_disabled, hide_elevation, on_shadow_color, on_size,
      on_pos, update_resolution, Except.toOption, hc, hr, hd]

/-- C2 counterexample: disabling a concrete widget with stored elevation 4
leaves the effective elevation at -4, not 0. -/
theorem C2_counterexample :
    ((set_disabled base true).toOption.map fun t => t.elevation_internal)
      = some (-4) ∧ (-4 : ℚ) ≠ 0 := by
  constructor
  · simp [set_disabled, on_disabled, hide_elevation, on_shadow_color, on_size,
      on_pos, update_resolution, Except.toOption, base, baseCtx, baseQuad]
  · norm_num

/-- C2 witness: the amended behavior at the concrete widget `base`. -/
theorem C2_witness :
    base.context = some baseCtx ∧ base.rect = some baseQuad ∧
    base.disabled = false ∧ (0 : ℚ) ≤ base.elevation ∧
    (((set_disabled base true).toOption.map fun t => t.elevation_internal)
        = some (-base.elevation)
      ∧ -base.elevation ≤ 0
      ∧ ((set_disabled base true).toOption.map fun t => t.elevation)
          = some base.elevation
      ∧ ((set_disabled base true).toOption.map fun t => t.shadow_color_internal)
          = some [0, 0, 0, 0]
      ∧ ((set_disabled base true).toOption.map fun t =>
            t.context.map fun c1 => c1.shadow_color) = some (some [0, 0, 0, 0])
      ∧ ((set_disabled base true).toOption.bind fun t =>
            (set_disabled t false).toOption.map fun u =>
              (u.elevation_internal, u.elevation))
          = some (base.elevation, base.elevation)) :=
  ⟨rfl, rfl, rfl, by norm_num [base],
    C2_disabled_suppresses_shadow base baseCtx baseQuad rfl rfl rfl
      (by norm_num [base])⟩

end Elevation

namespace Elevation

/-- C3: on an initialized, enabled widget, for every stored elevation ≥ 0
and shadow softness ≥ 0, after the elevation handler and a size change the
shadow quad size equals `host_size + elevation * softness / 2`
component-wise in both axes. -/
theorem C3_shadow_quad_size (s : CommonElevationBehavior) (c : RenderCtx)
    (r : Quad) (hc : s.context = some c) (hr : s.rect = some r)
    (hd : s.disabled = false) (he : 0 ≤ s.elevation)
    (hsoft : 0 ≤ s.shadow_softness) :
    (((on_elevation s s.elevation).bind on_size).toOption.map fun t =>
        t.rect.map fun q => q.size)
      = some (some (s.size.1 + s.elevation * s.shadow_softness / 2,
                    s.size.2 + s.elevation * s.shadow_softness / 2)) := by
  by_cases h0 : s.elevation ≤ 0
  · have hz : s.elevation = 0 := le_antisymm h0 he
    simp [on_elevation, hide_elevation, on_shadow_color, on_size, on_pos,
      update_resolution, Except.bind, Except.toOption, hc, hr, hd, h0, hz]
  · simp [on_elevation, hide_elevation, on_shadow_color, on_size, on_pos,
      update_resolution, Except.bind, Except.toOption, hc, hr, hd, h0]

/-- C3 witness: the quad size formula at the concrete widget `base`. -/
theorem C3_witness :
    base.disabled = false ∧ (0 : ℚ) ≤ base.elevation ∧
    (0 : ℚ) ≤ base.shadow_softness ∧
    (((on_elevation base base.elevation).bind on_size).toOption.map fun t =>
        t.rect.map fun q => q.size)
      = some (some (base.size.1 + base.elevation * base.shadow_softness / 2,
                    base.size.2 + base.elevation * base.shadow_softness / 2)) :=
  ⟨rfl, by norm_num [base], by norm_num [base],
    C3_shadow_quad_size base baseCtx baseQuad rfl rfl rfl (by norm_num [base])
      (by norm_num [base])⟩

/-- C5: with host position, host size and shadow quad size held fixed, the
shadow quad position `on_pos` computes with `shadow_offset = (x, y)`
differs from the position computed with zero offset by exactly
`(-x, -y)` in each axis. -/
theorem C5_offset_round_trip (s : CommonElevationBehavior) (c : RenderCtx)
    (r : Quad) (hc : s.context = some c) (hr : s.rect = some r) (x y : ℚ) :
    ((on_pos { s with shadow_offset := (x, y) }).toOption.map fun t =>
        t.rect.map fun q => q.pos)
      = ((on_pos { s with shadow_offset := (0, 0) }).toOption.map fun t =>
          t.rect.map fun q => (q.pos.1 - x, q.pos.2 - y)) := by
  by_cases hb : (s.has_relative_position && !c.use_parent_modelview) = true <;>
    simp [on_pos, update_resolution, Except.toOption, hc, hr, hb]

/-- C5 witness: the offset round trip at the concrete widget `base` with
offset `(3, 5)`. -/
theorem C5_witness :
    ((on_pos { base with shadow_offset := (3, 5) }).toOption.map fun t =>
        t.rect.map fun q => q.pos)
      = ((on_pos { base with shadow_offset := (0, 0) }).toOption.map fun t =>
          t.rect.map fun q => (q.pos.1 - 3, q.pos.2 - 5)) :=
  C5_offset_round_trip base baseCtx baseQuad rfl rfl 3 5

/-- C8 (amended): on a widget that lacks the render-target attributes
(`context` and `rect` not yet created), the radius, softness, elevation,
position and size handlers are no-ops — the update is silently dropped, no
error is raised and no state changes; the shadow-color handler, however,
is *not* guarded: it fails with an `AttributeError` at the `context`
access (after mutating the internal shadow-color cache). -/
theorem C8_uninitialized_no_op (s : CommonElevationBehavior)
    (hc : s.context = none) (hr : s.rect = none) :
    (∀ v, on_shadow_radius s v = s)
    ∧ (∀ v, on_shadow_softness s v = s)
    ∧ (∀ v, on_elevation s v = .ok s)
    ∧ on_pos s = .ok s
    ∧ on_size s = .ok s
    ∧ ∀ v, (on_shadow_color s v).toOption = none := by
  refine ⟨fun v => ?_, fun v => ?_, fun v => ?_, ?_, ?_, fun v => ?_⟩ <;>
    simp [on_shadow_radius, on_shadow_softness, on_elevation, on_pos, on_size,
      on_shadow_color, Except.toOption, hc, hr]

/-- C8 counterexample: a shadow-color change on an uninitialized widget is
not silently dropped — the handler raises an `AttributeError`, refuting
the claim for the shadow-color handler. -/
theorem C8_counterexample :
    on_shadow_color uninit [0, 0, 0, 3/5] = .error "AttributeError" := by
  simp [on_shadow_color, uninit, base]

/-- C8 witness: the guarded handlers at the concrete uninitialized
widget. -/
theorem C8_witness :
    uninit.context = none ∧ uninit.rect = none ∧ on_pos uninit = .ok uninit :=
  ⟨rfl, rfl, (C8_uninitialized_no_op uninit rfl rfl).2.2.2.1⟩

end Elevation
